import Mathlib

/-!
Verification of the anki_addon reconciliation and import engine against its
specification.

The development shallowly embeds the engine's orchestration logic:

* `FlashCard`, `CardResult` embed `src/anki_sync_core/models.py`.
* `decodeRaw`, `decodeAll`, `fetchUpdatedFlashcards` embed the decoding and
  error handling of `VocabularyAPIClient.fetch_updated_flashcards`
  (`src/anki_sync_core/api_client.py`, lines 49-75).
* `processCard`, `syncLoop`, `synchronizeUpdatedCards` embed
  `FlashcardSynchronizer.synchronize_updated_cards`
  (`src/anki_addon_file/anki_sync_core/synchronizer.py`, lines 60-111).
  The Anki collection and the HTTP client are external collaborators, so they
  appear as an environment `SyncEnv` of oracle functions whose outcome is
  either a value or a raised exception (`Except SyncError`); the embedding
  additionally records a trace of `SyncEvent`s so that frame and ordering
  properties (which calls happened, in which order) are statable.
* `importLoop`, `importCards` embed `FileDeckImporter.import_cards`
  (`src/anki_addon_server/anki_sync_core/file_importer.py`, lines 87-140).
* `parseLine`, `parseFile` embed `FileDeckImporter._parse_line` and
  `FileDeckImporter.parse_file` (same file, lines 45-81); a physical line is
  abstracted by the outcome of `json.loads` on it (`ImportLine`), since the
  JSON library is an external collaborator.
* `ANote`, `ACollection`, `updateExistingCard` embed
  `AnkiCardManager.update_existing_card` and its helpers
  (`src/anki_addon_server/anki_sync_core/anki_manager.py`, lines 41-132) over
  an explicit note-store state.
-/

set_option autoImplicit false

namespace AnkiAddon

/-- A JSON-ish value as produced by `json.loads` for the payload fields the
engine touches.  Arrays/objects never flow into the fields the claims concern,
so scalar values suffice. -/
inductive JVal where
  | s (v : String)
  | n (v : Int)
  | b (v : Bool)
  | null
  deriving DecidableEq, Repr

/-- Python `str()` on a scalar JSON value. -/
def jStr : JVal → String
  | JVal.s v => v
  | JVal.n v => toString v
  | JVal.b true => "True"
  | JVal.b false => "False"
  | JVal.null => "None"

/-- Python truthiness on a scalar JSON value (`bool(...)`). -/
def jTruthy : JVal → Bool
  | JVal.s v => v ≠ ""
  | JVal.n v => v ≠ 0
  | JVal.b v => v
  | JVal.null => false

/-- `payload.get(key)`: first binding of `key` in the decoded object. -/
def getJ (p : List (String × JVal)) (k : String) : Option JVal :=
  (p.find? (fun kv => kv.1 = k)).map (fun kv => kv.2)

/-- `FlashCard` from `src/anki_sync_core/models.py` (lines 14-41).
`description` is annotated `Optional[str]` in the dataclass but defaults to
`''` and is always a string on every path the engine takes, so it is a
`String` here; `id` is declared `Optional[int]`. -/
structure FlashCard where
  deck : String
  front : String
  back : String
  updated : Bool
  id : Option Int := none
  ankiId : Option String := none
  description : String := ""
  deriving DecidableEq, Repr

/-- `OpChanges` flags that the synchronizer and the importer construct
(`deck`, `note`, `card`, `deck_config`, `browser_table`, all `True`). -/
structure OpChanges where
  deck : Bool
  note : Bool
  card : Bool
  deck_config : Bool
  browser_table : Bool
  deriving DecidableEq, Repr

/-- The `OpChanges(deck=True, note=True, card=True, deck_config=True,
browser_table=True)` literal used by both entry points. -/
def allChanges : OpChanges :=
  { deck := true, note := true, card := true, deck_config := true,
    browser_table := true }

/-- `CardResult` from `src/anki_sync_core/models.py` (lines 44-65). -/
structure CardResult where
  changes : OpChanges
  changed_cards : List FlashCard
  deriving DecidableEq, Repr

/-- `CardResult.is_empty`: `len(self.changed_cards) == 0`. -/
def CardResult.is_empty (r : CardResult) : Bool :=
  r.changed_cards.length = 0

/-- Python truthiness of an `Optional[str]` (`if flashcard.ankiId`): `None`
and the empty string are falsy. -/
def truthy : Option String → Bool
  | none => false
  | some s => s ≠ ""

/-- Exceptions raised during a synchronization run.  `api` is
`VocabularyAPIError`; `other` is any other Python exception (for example a
`TypeError` raised while binding `FlashCard(**raw_card)`). -/
inductive SyncError where
  | api (msg : String)
  | other (msg : String)
  deriving DecidableEq, Repr

/-- Keyword arguments that the `FlashCard` dataclass constructor accepts. -/
def flashCardKeys : List String :=
  ["deck", "front", "back", "updated", "id", "ankiId", "description"]

/-- Keyword arguments the `FlashCard` dataclass constructor requires (the
fields without defaults in `models.py`). -/
def flashCardRequired : List String :=
  ["deck", "front", "back", "updated"]

/-- Read an optional string-valued field exactly as the raw value is stored
by the dataclass: JSON `null` is Python `None`; non-string scalars are kept
via their string rendering (the dataclass performs no conversion, and such
values are outside the declared `Optional[str]` schema). -/
def asOptStr : Option JVal → Option String
  | none => none
  | some JVal.null => none
  | some (JVal.s v) => some v
  | some v => some (jStr v)

/-- Read a required string-valued field from a decoded object. -/
def asStr (p : List (String × JVal)) (k : String) : String :=
  jStr ((getJ p k).getD (JVal.s ("")))

/-- `FlashCard(**raw_card)` in `fetch_updated_flashcards` (api_client.py,
line 68): raises a `TypeError` when the object carries an unexpected keyword
or misses one of the required fields, and otherwise binds the fields. -/
def decodeRaw (raw : List (String × JVal)) : Except SyncError FlashCard :=
  if raw.all (fun kv => flashCardKeys.contains kv.1) = false then
    Except.error (SyncError.other ("unexpected keyword argument"))
  else if flashCardRequired.all (fun k => raw.any (fun kv => kv.1 = k)) = false then
    Except.error (SyncError.other ("missing required argument"))
  else
    Except.ok
      { deck := asStr raw ("deck")
        front := asStr raw ("front")
        back := asStr raw ("back")
        updated := jTruthy ((getJ raw ("updated")).getD (JVal.b false))
        id := match getJ raw ("id") with
          | some (JVal.n v) => some v
          | _ => none
        ankiId := asOptStr (getJ raw ("ankiId"))
        description := asStr raw ("description") }

/-- The decode loop of `fetch_updated_flashcards` (api_client.py, lines
66-69): each entry of `response.json()` is bound in order; a failing entry
raises out of the loop, so no partial list is ever produced. -/
def decodeAll : List (List (String × JVal)) → Except SyncError (List FlashCard)
  | [] => Except.ok []
  | raw :: rest =>
    match decodeRaw raw with
    | Except.error e => Except.error e
    | Except.ok c =>
      match decodeAll rest with
      | Except.error e => Except.error e
      | Except.ok cs => Except.ok (c :: cs)

/-- `VocabularyAPIClient.fetch_updated_flashcards` (api_client.py, lines
49-75), over the outcome of the HTTP GET: a transport error or non-2xx status
(`RequestException`, the argument's `error` case) is caught and re-raised as
`VocabularyAPIError`; a successful response body is decoded entry by entry,
and a decode failure (a `TypeError`, not a `RequestException`) escapes the
`except` clause unwrapped. -/
def fetchUpdatedFlashcards (resp : Except String (List (List (String × JVal)))) :
    Except SyncError (List FlashCard) :=
  match resp with
  | Except.error e =>
    Except.error (SyncError.api ("Failed to fetch updated flashcards: " ++ e))
  | Except.ok raws => decodeAll raws

/-- The collaborators of `FlashcardSynchronizer` (the `AnkiCardManager` and
`VocabularyAPIClient` methods it calls), each of which either returns a value
or raises. -/
structure SyncEnv where
  getOrCreateDeckId : String → Except SyncError Nat
  findNoteByGuid : String → Except SyncError (Option Nat)
  createNewCard : FlashCard → Nat → Except SyncError (Option String)
  updateExistingCard : FlashCard → Nat → Except SyncError Bool
  apiCreateFlashcard : FlashCard → Except SyncError Bool
  apiUpdateFlashcard : FlashCard → Except SyncError Bool

/-- Observable steps of a synchronization run, in program order.
`deckResolve`, `findNote`, `localCreate` and `localUpdate` are the calls into
the local store adapter; `setAnkiId`/`setUpdatedFalse` are the in-place field
assignments on the record; `remoteAck` marks a per-record remote call that
returned successfully. -/
inductive SyncEvent where
  | deckResolve (name : String)
  | findNote (guid : String)
  | localCreate
  | localUpdate
  | setAnkiId (guid : String)
  | setUpdatedFalse
  | remoteAck
  deriving DecidableEq, Repr

/-- The body of the per-record loop of `synchronize_updated_cards`
(synchronizer.py, lines 66-88): resolve the deck, look the note up when
`ankiId` is truthy, then either create (when `ankiId` is `None` or the lookup
found nothing) or update; on either path the record's `updated` flag is set
to `False` and the remote call is issued before the record is reported.
Returns the trace of events together with the outcome: `ok (some c)` when the
(possibly field-assigned) record `c` is appended to `changed_cards`,
`ok none` when the record is skipped, `error e` when an exception escapes the
body (to be caught by the loop). -/
def processCard (env : SyncEnv) (card : FlashCard) :
    List SyncEvent × Except SyncError (Option FlashCard) :=
  match env.getOrCreateDeckId card.deck with
  | Except.error e => ([SyncEvent.deckResolve card.deck], Except.error e)
  | Except.ok deckId =>
    let ev0 := [SyncEvent.deckResolve card.deck]
    let findStep : List SyncEvent × Except SyncError (Option Nat) :=
      if truthy card.ankiId then
        ([SyncEvent.findNote (card.ankiId.getD (""))],
          env.findNoteByGuid (card.ankiId.getD ("")))
      else ([], Except.ok none)
    match findStep with
    | (ev1, Except.error e) => (ev0 ++ ev1, Except.error e)
    | (ev1, Except.ok existingNoteId) =>
      if card.ankiId = none ∨ existingNoteId = none then
        match env.createNewCard card deckId with
        | Except.error e =>
          (ev0 ++ ev1 ++ [SyncEvent.localCreate], Except.error e)
        | Except.ok none =>
          (ev0 ++ ev1 ++ [SyncEvent.localCreate], Except.ok none)
        | Except.ok (some guid) =>
          let card1 := { card with ankiId := some guid, updated := false }
          match env.apiCreateFlashcard card1 with
          | Except.error e =>
            (ev0 ++ ev1 ++ [SyncEvent.localCreate, SyncEvent.setAnkiId guid,
              SyncEvent.setUpdatedFalse], Except.error e)
          | Except.ok _ =>
            (ev0 ++ ev1 ++ [SyncEvent.localCreate, SyncEvent.setAnkiId guid,
              SyncEvent.setUpdatedFalse, SyncEvent.remoteAck],
              Except.ok (some card1))
      else
        match env.updateExistingCard card deckId with
        | Except.error e =>
          (ev0 ++ ev1 ++ [SyncEvent.localUpdate], Except.error e)
        | Except.ok false =>
          (ev0 ++ ev1 ++ [SyncEvent.localUpdate], Except.ok none)
        | Except.ok true =>
          let card1 := { card with updated := false }
          match env.apiUpdateFlashcard card1 with
          | Except.error e =>
            (ev0 ++ ev1 ++ [SyncEvent.localUpdate, SyncEvent.setUpdatedFalse],
              Except.error e)
          | Except.ok _ =>
            (ev0 ++ ev1 ++ [SyncEvent.localUpdate, SyncEvent.setUpdatedFalse,
              SyncEvent.remoteAck], Except.ok (some card1))

/-- The record reported for `card`, when one is (`ok (some _)` outcomes of
`processCard`); `none` when the record is skipped or its processing raised. -/
def processOk (env : SyncEnv) (card : FlashCard) : Option FlashCard :=
  match (processCard env card).2 with
  | Except.ok (some c) => some c
  | _ => none

/-- The `for flashcard in updated_cards` loop (synchronizer.py, lines
64-93): each record is processed in list order; an exception from one
record's processing is caught and the loop continues with the next record. -/
def syncLoop (env : SyncEnv) : List FlashCard → List SyncEvent × List FlashCard
  | [] => ([], [])
  | card :: rest =>
    let step := processCard env card
    let tail := syncLoop env rest
    match step.2 with
    | Except.ok (some c) => (step.1 ++ tail.1, c :: tail.2)
    | _ => (step.1 ++ tail.1, tail.2)

/-- `synchronize_updated_cards` without the outer exception handler
(synchronizer.py, lines 60-104), over the outcome of
`fetch_updated_flashcards`: a fetch failure propagates; otherwise the loop
runs and a `CardResult` with the full `OpChanges` literal is returned. -/
def synchronizeCore (env : SyncEnv)
    (fetchRes : Except SyncError (List FlashCard)) :
    List SyncEvent × Except SyncError CardResult :=
  match fetchRes with
  | Except.error e => ([], Except.error e)
  | Except.ok cards =>
    let run := syncLoop env cards
    (run.1, Except.ok { changes := allChanges, changed_cards := run.2 })

/-- The outer `except` clauses of `synchronize_updated_cards`
(synchronizer.py, lines 106-111): a `VocabularyAPIError` is re-raised as is,
any other exception is wrapped into `VocabularyAPIError`. -/
def wrapOuter : Except SyncError CardResult → Except SyncError CardResult
  | Except.error (SyncError.api m) => Except.error (SyncError.api m)
  | Except.error (SyncError.other m) =>
    Except.error (SyncError.api ("Synchronization failed: " ++ m))
  | Except.ok r => Except.ok r

/-- `FlashcardSynchronizer.synchronize_updated_cards` (synchronizer.py, lines
44-111), over the outcome of the initial fetch and the collaborator
environment. -/
def synchronizeUpdatedCards (env : SyncEnv)
    (fetchRes : Except SyncError (List FlashCard)) :
    List SyncEvent × Except SyncError CardResult :=
  let run := synchronizeCore env fetchRes
  (run.1, wrapOuter run.2)

/-- The slice of `SyncConfig` (`src/anki_addon_file/anki_sync_core/config.py`)
used by the code under verification, with the source's default values. -/
structure SyncConfig where
  default_model_name : String := "Einfach"
  anki_field_front : String := "Vorderseite"
  anki_field_back : String := "Rückseite"
  anki_field_description : String := "Description"
  import_deck_forward_name : String := "Language A->B"
  import_deck_reverse_name : String := "Language B->A"
  deriving DecidableEq, Repr

/-- The collaborators of `FileDeckImporter.import_cards`: the two
`AnkiCardManager` methods it calls.  `get_or_create_deck_id` resolves the
failure of the lookup internally (anki_manager.py, lines 146-162) and
`create_new_card` reports its failure modes as `None`, so both are total
here; `import_cards` installs no exception handler of its own. -/
structure ImportEnv where
  getOrCreateDeckId : String → Nat
  createNewCard : FlashCard → Nat → Option String

/-- Observable calls of an import run into the local store adapter. -/
inductive ImportEvent where
  | deckResolve (name : String)
  | createCard (deck : String) (front : String) (back : String)
  deriving DecidableEq, Repr

/-- The forward-orientation record built by `import_cards`
(file_importer.py, lines 104-112): a fresh `FlashCard` in the forward deck
with the source record's faces, description, `id` and `ankiId`, and
`updated = False`. -/
def mkForwardCard (cfg : SyncConfig) (card : FlashCard) : FlashCard :=
  { deck := cfg.import_deck_forward_name
    front := card.front
    back := card.back
    description := card.description
    updated := false
    id := card.id
    ankiId := card.ankiId }

/-- The reverse-orientation record built by `import_cards`
(file_importer.py, lines 118-126): faces swapped, `ankiId` cleared to
`None`. -/
def mkReverseCard (cfg : SyncConfig) (card : FlashCard) : FlashCard :=
  { deck := cfg.import_deck_reverse_name
    front := card.back
    back := card.front
    description := card.description
    updated := false
    id := card.id
    ankiId := none }

/-- The `for card in cards` loop of `import_cards` (file_importer.py, lines
102-129): per record, optionally create the forward orientation, then
optionally the reverse one; each record whose creation returned a guid is
appended to `changed_cards`. -/
def importLoop (env : ImportEnv) (cfg : SyncConfig) (fwdId revId : Nat)
    (doForward doReverse : Bool) :
    List FlashCard → List ImportEvent × List FlashCard
  | [] => ([], [])
  | card :: rest =>
    let fwd := mkForwardCard cfg card
    let rev := mkReverseCard cfg card
    let fstep : List ImportEvent × List FlashCard :=
      if doForward then
        ([ImportEvent.createCard fwd.deck fwd.front fwd.back],
          match env.createNewCard fwd fwdId with
          | some _ => [fwd]
          | none => [])
      else ([], [])
    let rstep : List ImportEvent × List FlashCard :=
      if doReverse then
        ([ImportEvent.createCard rev.deck rev.front rev.back],
          match env.createNewCard rev revId with
          | some _ => [rev]
          | none => [])
      else ([], [])
    let tail := importLoop env cfg fwdId revId doForward doReverse rest
    (fstep.1 ++ rstep.1 ++ tail.1, fstep.2 ++ rstep.2 ++ tail.2)

/-- `FileDeckImporter.import_cards` (file_importer.py, lines 87-140): both
deck identifiers are resolved (creating the decks on demand) before the
record loop runs, unconditionally; the result carries the full `OpChanges`
literal and the appended records. -/
def importCards (env : ImportEnv) (cfg : SyncConfig) (cards : List FlashCard)
    (doForward doReverse : Bool) : List ImportEvent × CardResult :=
  let fwdId := env.getOrCreateDeckId cfg.import_deck_forward_name
  let revId := env.getOrCreateDeckId cfg.import_deck_reverse_name
  let run := importLoop env cfg fwdId revId doForward doReverse cards
  ([ImportEvent.deckResolve cfg.import_deck_forward_name,
    ImportEvent.deckResolve cfg.import_deck_reverse_name] ++ run.1,
    { changes := allChanges, changed_cards := run.2 })

/-- A physical line of an import file, abstracted by the outcome of
`line.strip()` emptiness and `json.loads(line)`: blank, undecodable, or a
decoded JSON object. -/
inductive ImportLine where
  | blank
  | malformed (msg : String)
  | record (payload : List (String × JVal))
  deriving DecidableEq, Repr

/-- `FileImportError` (file_importer.py, lines 28-29, 51, 56-58, 73), with
the data each message interpolates. -/
inductive FileImportError where
  | invalidJson (lineNumber : Nat) (msg : String)
  | missingField (field : String) (lineNumber : Nat)
  | fileNotFound (path : String)
  deriving DecidableEq, Repr

/-- The line number a `FileImportError` names (0 when it names none). -/
def FileImportError.line : FileImportError → Nat
  | FileImportError.invalidJson n _ => n
  | FileImportError.missingField _ n => n
  | FileImportError.fileNotFound _ => 0

/-- `FileDeckImporter._parse_line` (file_importer.py, lines 45-68): a blank
line yields no card; an undecodable line raises `FileImportError` naming the
line number; a decoded object missing `front` (checked first) or `back`
raises `FileImportError` naming the field and the line number; otherwise the
`FlashCard` is built with the documented defaults. -/
def parseLine (line : ImportLine) (lineNumber : Nat) :
    Except FileImportError (Option FlashCard) :=
  match line with
  | ImportLine.blank => Except.ok none
  | ImportLine.malformed msg =>
    Except.error (FileImportError.invalidJson lineNumber msg)
  | ImportLine.record payload =>
    if payload.any (fun kv => kv.1 = "front") = false then
      Except.error (FileImportError.missingField ("front") lineNumber)
    else if payload.any (fun kv => kv.1 = "back") = false then
      Except.error (FileImportError.missingField ("back") lineNumber)
    else
      Except.ok (some
        { deck := match getJ payload ("deck") with
            | none => ""
            | some (JVal.s v) => v
            | some v => jStr v
          front := asStr payload ("front")
          back := asStr payload ("back")
          description := asStr payload ("description")
          updated := jTruthy ((getJ payload ("updated")).getD (JVal.b false))
          id := match getJ payload ("id") with
            | some (JVal.n v) => some v
            | _ => none
          ankiId := asOptStr (getJ payload ("ankiId")) })

/-- The `for index, line in enumerate(handle, start=1)` loop of `parse_file`
(file_importer.py, lines 75-81), started at line number `lineNumber`: every
physical line (blank ones included) advances the counter; the first raising
line aborts the whole parse. -/
def parseLines (lineNumber : Nat) :
    List ImportLine → Except FileImportError (List FlashCard)
  | [] => Except.ok []
  | l :: rest =>
    match parseLine l lineNumber with
    | Except.error e => Except.error e
    | Except.ok none => parseLines (lineNumber + 1) rest
    | Except.ok (some c) =>
      match parseLines (lineNumber + 1) rest with
      | Except.error e => Except.error e
      | Except.ok cs => Except.ok (c :: cs)

/-- `FileDeckImporter.parse_file` (file_importer.py, lines 70-81) on the
lines of an existing file: 1-based enumeration over all physical lines. -/
def parseFile (lines : List ImportLine) : Except FileImportError (List FlashCard) :=
  parseLines 1 lines

/-- A line that `_parse_line` accepts: blank, or a decoded object carrying
both required keys. -/
def lineOk : ImportLine → Bool
  | ImportLine.blank => true
  | ImportLine.malformed _ => false
  | ImportLine.record payload =>
    payload.any (fun kv => kv.1 = "front") && payload.any (fun kv => kv.1 = "back")

/-- A note of the Anki collection as the manager touches it: database id,
guid, and named fields. -/
structure ANote where
  nid : Nat
  guid : String
  fields : List (String × String)
  deriving DecidableEq, Repr

/-- The slice of the Anki collection state that
`AnkiCardManager.update_existing_card` reads and writes: the note table and
the note-to-deck assignment maintained by `set_deck`. -/
structure ACollection where
  notes : List ANote
  noteDecks : List (Nat × Nat)
  deriving DecidableEq, Repr

/-- `note[key] = value`.  Anki requires `key` to be a field of the note's
model and raises otherwise; the store here is an assoc-list upsert, which
agrees with the source on every note whose model carries the configured
fields (a note's field names are unique). -/
def setField : List (String × String) → String → String → List (String × String)
  | [], key, val => [(key, val)]
  | kv :: rest, key, val =>
    if kv.1 = key then (key, val) :: rest else kv :: setField rest key val

/-- Reading a note field by name. -/
def fieldGet (fields : List (String × String)) (key : String) : Option String :=
  (fields.find? (fun kv => kv.1 = key)).map (fun kv => kv.2)

/-- `AnkiCardManager.set_note_fields` (anki_manager.py, lines 41-51): assign
the configured front, back and description fields, in that order. -/
def setNoteFields (cfg : SyncConfig) (fields : List (String × String))
    (card : FlashCard) : List (String × String) :=
  setField
    (setField (setField fields cfg.anki_field_front card.front)
      cfg.anki_field_back card.back)
    cfg.anki_field_description card.description

/-- `SELECT id FROM notes WHERE guid = ?` (anki_manager.py, lines 116-119):
the id of the first note carrying the guid, if any. -/
def findNoteIdByGuid (col : ACollection) (guid : String) : Option Nat :=
  (col.notes.find? (fun n => n.guid = guid)).map (fun n => n.nid)

/-- `AnkiCardManager.add_card_to_deck` (anki_manager.py, lines 53-65):
reassign the note's cards to the deck. -/
def addCardToDeck (col : ACollection) (nid deckId : Nat) : ACollection :=
  { col with noteDecks := (nid, deckId) :: col.noteDecks.filter (fun kv => kv.1 ≠ nid) }

/-- `AnkiCardManager.update_existing_card` (anki_manager.py, lines 101-132):
returns `False` for a falsy (absent or empty) guid and for a guid no note
carries; otherwise overwrites the located note's configured fields with the
record's values, reassigns its deck, and returns `True`. -/
def updateExistingCard (cfg : SyncConfig) (col : ACollection) (card : FlashCard)
    (deckId : Nat) : ACollection × Bool :=
  if truthy card.ankiId = false then (col, false)
  else
    match findNoteIdByGuid col (card.ankiId.getD ("")) with
    | none => (col, false)
    | some nid =>
      let col1 : ACollection :=
        { col with notes := col.notes.map (fun n =>
            if n.nid = nid then { n with fields := setNoteFields cfg n.fields card }
            else n) }
      (addCardToDeck col1 nid deckId, true)

/-! ## Concrete fixtures for witnesses and counterexamples -/

/-- A collaborator environment in which every call succeeds: deck 1, no
existing note, creation yields guid `g1`, updates succeed. -/
def envOk : SyncEnv where
  getOrCreateDeckId := fun _ => Except.ok 1
  findNoteByGuid := fun _ => Except.ok none
  createNewCard := fun _ _ => Except.ok (some ("g1"))
  updateExistingCard := fun _ _ => Except.ok true
  apiCreateFlashcard := fun _ => Except.ok true
  apiUpdateFlashcard := fun _ => Except.ok true

/-- An environment whose local store raises on the deck named `bad` and
succeeds everywhere else. -/
def envPartial : SyncEnv where
  getOrCreateDeckId := fun name =>
    if name = "bad" then Except.error (SyncError.other ("boom"))
    else Except.ok 1
  findNoteByGuid := fun _ => Except.ok none
  createNewCard := fun _ _ => Except.ok (some ("g1"))
  updateExistingCard := fun _ _ => Except.ok true
  apiCreateFlashcard := fun _ => Except.ok true
  apiUpdateFlashcard := fun _ => Except.ok true

/-- A pending record with no local binding yet. -/
def cardNew : FlashCard :=
  { deck := "d", front := "f", back := "b", updated := true }

/-- A second fresh pending record. -/
def cardNew2 : FlashCard :=
  { deck := "d", front := "f2", back := "b2", updated := true }

/-- A pending record whose deck makes `envPartial` raise. -/
def cardBad : FlashCard :=
  { deck := "bad", front := "x", back := "y", updated := true }

/-! ## Helper lemmas -/

/-- The loop reports exactly the per-record `ok (some _)` outcomes, in list
order. -/
theorem syncLoop_changed (env : SyncEnv) (cards : List FlashCard) :
    (syncLoop env cards).2 = cards.filterMap (processOk env) := by
  induction cards with
  | nil => rfl
  | cons card rest ih =>
    simp only [syncLoop, List.filterMap_cons, processOk]
    cases h : (processCard env card).2 with
    | error e => simp [h, ih]
    | ok v =>
      cases v with
      | none => simp [h, ih]
      | some c => simp [h, ih]

/-- Dropping an element that `f` sends to `none` does not change the
`filterMap`. -/
theorem filterMap_eraseIdx_of_none {α β : Type} (f : α → Option β) :
    ∀ (l : List α) (k : Nat) (hk : k < l.length),
      f (l.get ⟨k, hk⟩) = none → l.filterMap f = (l.eraseIdx k).filterMap f := by
  intro l
  induction l with
  | nil => intro k hk; simp at hk
  | cons a rest ih =>
    intro k hk hnone
    cases k with
    | zero =>
      simp only [List.get] at hnone
      simp [List.filterMap_cons, hnone, List.eraseIdx]
    | succ k' =>
      simp only [List.get] at hnone
      have hk' : k' < rest.length := by
        simpa [List.length_cons, Nat.succ_lt_succ_iff] using hk
      simp only [List.eraseIdx, List.filterMap_cons]
      rw [ih k' hk' hnone]

/-- When every element maps to `some`, `filterMap` has full length. -/
theorem filterMap_length_of_all_some {α β : Type} (f : α → Option β) :
    ∀ (l : List α), (∀ c ∈ l, ∃ x, f c = some x) →
      (l.filterMap f).length = l.length := by
  intro l
  induction l with
  | nil => intro _; rfl
  | cons a rest ih =>
    intro h
    obtain ⟨x, hx⟩ := h a (List.mem_cons_self a rest)
    simp only [List.filterMap_cons, hx, List.length_cons]
    rw [ih (fun c hc => h c (List.mem_cons_of_mem a hc))]

/-! ## Claims -/

/-- C6: when the remote returns zero pending records, `synchronize` returns a
`SyncResult` whose `changedRecords` is empty and whose `isEmpty` is true, and
it performs no call at all to the local store adapter: the event trace of the
run is empty. -/
theorem sync_empty_result (env : SyncEnv) :
    synchronizeUpdatedCards env (Except.ok []) =
      ([], Except.ok { changes := allChanges, changed_cards := [] }) ∧
    CardResult.is_empty { changes := allChanges, changed_cards := [] } = true := by
  exact ⟨rfl, rfl⟩

/-- C1: partial failure isolation.  If processing record `k` raises any
exception while every other record is processed successfully (reported as
changed), then `synchronize` returns normally and `changedRecords` is exactly
the per-record outputs of the `N - 1` other records, in their original
relative order (`processOk` is the record as mutated in place by its own
processing). -/
theorem sync_partial_failure_isolation (env : SyncEnv) (cards : List FlashCard)
    (k : Nat) (hk : k < cards.length) (err : SyncError)
    (hfail : (processCard env (cards.get ⟨k, hk⟩)).2 = Except.error err)
    (hok : ∀ c ∈ cards.eraseIdx k, ∃ x, (processCard env c).2 = Except.ok (some x)) :
    ∃ res, (synchronizeUpdatedCards env (Except.ok cards)).2 = Except.ok res ∧
      res.changed_cards = (cards.eraseIdx k).filterMap (processOk env) ∧
      res.changed_cards.length = cards.length - 1 := by
  refine ⟨{ changes := allChanges, changed_cards := (syncLoop env cards).2 }, rfl, ?_, ?_⟩
  · have hnone : processOk env (cards.get ⟨k, hk⟩) = none := by
      unfold processOk
      rw [hfail]
    simpa [syncLoop_changed] using
      filterMap_eraseIdx_of_none (processOk env) cards k hk hnone
  · have hall : ∀ c ∈ cards.eraseIdx k, ∃ x, processOk env c = some x := by
      intro c hc
      obtain ⟨x, hx⟩ := hok c hc
      exact ⟨x, by simp [processOk, hx]⟩
    have hnone : processOk env (cards.get ⟨k, hk⟩) = none := by
      unfold processOk
      rw [hfail]
    have hlen := filterMap_length_of_all_some (processOk env) (cards.eraseIdx k) hall
    have herase : (cards.eraseIdx k).length = cards.length - 1 := by
      rw [List.length_eraseIdx]
      simp [hk]
    simp only [syncLoop_changed]
    rw [filterMap_eraseIdx_of_none (processOk env) cards k hk hnone, hlen, herase]

/-- C1 witness: three pending records of which the middle one raises in the
local store adapter (deck resolution); the run succeeds and reports the two
others. -/
theorem sync_partial_failure_isolation_witness :
    ∃ res, (synchronizeUpdatedCards envPartial
        (Except.ok [cardNew, cardBad, cardNew2])).2 = Except.ok res ∧
      res.changed_cards =
        ([cardNew, cardBad, cardNew2].eraseIdx 1).filterMap (processOk envPartial) ∧
      res.changed_cards.length = [cardNew, cardBad, cardNew2].length - 1 := by
  refine sync_partial_failure_isolation envPartial [cardNew, cardBad, cardNew2] 1
    (by decide) (SyncError.other ("boom")) (by rfl) ?_
  intro c hc
  have hc2 : c = cardNew ∨ c = cardNew2 := by
    simpa [List.eraseIdx] using hc
  rcases hc2 with h | h <;> subst h
  · exact ⟨{ cardNew with ankiId := some ("g1"), updated := false }, by rfl⟩
  · exact ⟨{ cardNew2 with ankiId := some ("g1"), updated := false }, by rfl⟩

/-- A record entering a run with a local binding that no longer resolves. -/
def cardDrift : FlashCard :=
  { deck := "d", front := "f", back := "b", updated := true, ankiId := some ("gOld") }

/-- An environment in which guid `ref` resolves to note 7 and updates
succeed. -/
def envUpd : SyncEnv where
  getOrCreateDeckId := fun _ => Except.ok 1
  findNoteByGuid := fun g => if g = "ref" then Except.ok (some 7) else Except.ok none
  createNewCard := fun _ _ => Except.ok (some ("g1"))
  updateExistingCard := fun _ _ => Except.ok true
  apiCreateFlashcard := fun _ => Except.ok true
  apiUpdateFlashcard := fun _ => Except.ok true

/-- A record whose `ankiId` resolves in `envUpd`. -/
def cardRef : FlashCard :=
  { deck := "d", front := "f", back := "b", updated := true, ankiId := some ("ref") }

/-- C2 counterexample: a record that enters `synchronize` with the non-null
`externalRef` `gOld` which no longer resolves locally is re-created, and the
run rewrites its `externalRef` to the newly assigned guid `g1` — a different
value.  So `externalRef` is not write-once over a record's lifetime. -/
theorem externalRef_rewritten_on_drift :
    cardDrift.ankiId = some ("gOld") ∧
    (synchronizeUpdatedCards envOk (Except.ok [cardDrift])).2 =
      Except.ok (CardResult.mk allChanges
        [{ cardDrift with ankiId := some ("g1"), updated := false }]) ∧
    ({ cardDrift with ankiId := some ("g1"), updated := false } : FlashCard).ankiId ≠
      some ("gOld") := by
  refine ⟨rfl, rfl, by decide⟩

/-- C2 amended: a record whose non-null `externalRef` still resolves to an
existing local entity never has it rewritten by the run; only a record whose
`externalRef` is null — or no longer resolves locally (drift re-creation,
documented in the spec's design notes) — has it assigned. -/
theorem externalRef_stable_when_resolving (env : SyncEnv) (card c : FlashCard)
    (r : String) (nid : Nat)
    (hr : card.ankiId = some r) (hne : r ≠ "")
    (hfind : env.findNoteByGuid r = Except.ok (some nid))
    (hc : (processCard env card).2 = Except.ok (some c)) :
    c.ankiId = some r := by
  unfold processCard at hc
  cases hdeck : env.getOrCreateDeckId card.deck with
  | error e =>
    rw [hdeck] at hc
    exact absurd hc (by simp)
  | ok deckId =>
    rw [hdeck] at hc
    have htr : truthy card.ankiId = true := by rw [hr]; simp [truthy, hne]
    have hgd : card.ankiId.getD ("") = r := by rw [hr]; rfl
    rw [htr] at hc
    simp only [if_true] at hc
    rw [hgd, hfind] at hc
    have hcond : ¬(card.ankiId = none ∨ (some nid : Option Nat) = none) := by
      rw [hr]; simp
    simp only [] at hc
    rw [if_neg hcond] at hc
    cases hupd : env.updateExistingCard card deckId with
    | error e =>
      rw [hupd] at hc
      simp at hc
    | ok b =>
      cases b with
      | false =>
        rw [hupd] at hc
        simp at hc
      | true =>
        rw [hupd] at hc
        cases hapi : env.apiUpdateFlashcard { card with updated := false } with
        | error e =>
          rw [hapi] at hc
          simp at hc
        | ok b2 =>
          rw [hapi] at hc
          simp only [Except.ok.injEq, Option.some.injEq] at hc
          subst hc
          simpa using hr

/-- C2 amended witness: a concrete record bound to guid `ref`, which
resolves, keeps `ankiId = some ref` through its processing. -/
theorem externalRef_stable_when_resolving_witness :
    ({ cardRef with updated := false } : FlashCard).ankiId = some ("ref") :=
  externalRef_stable_when_resolving envUpd cardRef
    { cardRef with updated := false } ("ref") 7 rfl (by decide) rfl rfl

/-- Scan of a trace checking that every `setUpdatedFalse` happens after some
earlier `remoteAck`. -/
def clearedOnlyAfterAckAux (ackSeen : Bool) : List SyncEvent → Bool
  | [] => true
  | SyncEvent.setUpdatedFalse :: rest => ackSeen && clearedOnlyAfterAckAux ackSeen rest
  | SyncEvent.remoteAck :: rest => clearedOnlyAfterAckAux true rest
  | _ :: rest => clearedOnlyAfterAckAux ackSeen rest

/-- Whether a trace only ever clears the `updated` flag after a remote call
has already returned successfully. -/
def clearedOnlyAfterAck (evs : List SyncEvent) : Bool :=
  clearedOnlyAfterAckAux false evs

/-- C3 counterexample: on a fully successful create path the record's
`updated` flag is assigned `False` strictly before the remote call returns —
the trace sets the flag and only then acknowledges — so the flag does become
false before the remote create/update has returned successfully. -/
theorem needsSync_cleared_before_ack :
    (processCard envOk cardNew).2 =
      Except.ok (some { cardNew with ankiId := some ("g1"), updated := false }) ∧
    (processCard envOk cardNew).1 =
      [SyncEvent.deckResolve ("d"), SyncEvent.localCreate,
       SyncEvent.setAnkiId ("g1"), SyncEvent.setUpdatedFalse, SyncEvent.remoteAck] ∧
    clearedOnlyAfterAck (processCard envOk cardNew).1 = false := by
  refine ⟨rfl, rfl, rfl⟩

/-- C3 amended: in both the create path and the update path, the `updated`
flag is assigned `False` immediately before the remote call, and a record is
reported as changed only when that remote call returned successfully: every
reported record has `updated = false` and its trace ends with the flag
assignment followed directly by the remote acknowledgment. -/
theorem needsSync_cleared_then_acked (env : SyncEnv) (card c : FlashCard)
    (hc : (processCard env card).2 = Except.ok (some c)) :
    c.updated = false ∧
    ∃ pre, (processCard env card).1 =
      pre ++ [SyncEvent.setUpdatedFalse, SyncEvent.remoteAck] := by
  rcases hP : processCard env card with ⟨tr, res⟩
  rw [hP] at hc
  change res = Except.ok (some c) at hc
  show c.updated = false ∧ ∃ pre, tr = pre ++ [SyncEvent.setUpdatedFalse, SyncEvent.remoteAck]
  unfold processCard at hP
  cases hdeck : env.getOrCreateDeckId card.deck with
  | error e =>
    simp only [hdeck] at hP
    rw [Prod.mk.injEq] at hP
    rw [← hP.2] at hc
    simp at hc
  | ok deckId =>
    simp only [hdeck] at hP
    by_cases htr : truthy card.ankiId = true
    · simp only [htr, if_true] at hP
      cases hfind : env.findNoteByGuid (card.ankiId.getD ("")) with
      | error e =>
        simp only [hfind] at hP
        rw [Prod.mk.injEq] at hP
        rw [← hP.2] at hc
        simp at hc
      | ok existing =>
        simp only [hfind] at hP
        by_cases hcond : card.ankiId = none ∨ existing = none
        · rw [if_pos hcond] at hP
          cases hcr : env.createNewCard card deckId with
          | error e =>
            simp only [hcr] at hP
            rw [Prod.mk.injEq] at hP
            rw [← hP.2] at hc
            simp at hc
          | ok og =>
            cases og with
            | none =>
              simp only [hcr] at hP
              rw [Prod.mk.injEq] at hP
              rw [← hP.2] at hc
              simp at hc
            | some g =>
              simp only [hcr] at hP
              cases hapi : env.apiCreateFlashcard { card with ankiId := some g, updated := false } with
              | error e =>
                simp only [hapi] at hP
                rw [Prod.mk.injEq] at hP
                rw [← hP.2] at hc
                simp at hc
              | ok b =>
                simp only [hapi] at hP
                rw [Prod.mk.injEq] at hP
                rw [← hP.2] at hc
                simp only [Except.ok.injEq, Option.some.injEq] at hc
                subst hc
                refine ⟨rfl, ?_⟩
                refine ⟨[SyncEvent.deckResolve card.deck] ++
                  [SyncEvent.findNote (card.ankiId.getD (""))] ++
                  [SyncEvent.localCreate, SyncEvent.setAnkiId g], ?_⟩
                rw [← hP.1]
                simp
        · rw [if_neg hcond] at hP
          cases hupd : env.updateExistingCard card deckId with
          | error e =>
            simp only [hupd] at hP
            rw [Prod.mk.injEq] at hP
            rw [← hP.2] at hc
            simp at hc
          | ok b =>
            cases b with
            | false =>
              simp only [hupd] at hP
              rw [Prod.mk.injEq] at hP
              rw [← hP.2] at hc
              simp at hc
            | true =>
              simp only [hupd] at hP
              cases hapi : env.apiUpdateFlashcard { card with updated := false } with
              | error e =>
                simp only [hapi] at hP
                rw [Prod.mk.injEq] at hP
                rw [← hP.2] at hc
                simp at hc
              | ok b2 =>
                simp only [hapi] at hP
                rw [Prod.mk.injEq] at hP
                rw [← hP.2] at hc
                simp only [Except.ok.injEq, Option.some.injEq] at hc
                subst hc
                refine ⟨rfl, ?_⟩
                refine ⟨[SyncEvent.deckResolve card.deck] ++
                  [SyncEvent.findNote (card.ankiId.getD (""))] ++
                  [SyncEvent.localUpdate], ?_⟩
                rw [← hP.1]
                simp
    · simp only [eq_false_of_ne_true htr, Bool.false_eq_true, if_false] at hP
      simp only [or_true, if_true] at hP
      cases hcr : env.createNewCard card deckId with
      | error e =>
        simp only [hcr] at hP
        rw [Prod.mk.injEq] at hP
        rw [← hP.2] at hc
        simp at hc
      | ok og =>
        cases og with
        | none =>
          simp only [hcr] at hP
          rw [Prod.mk.injEq] at hP
          rw [← hP.2] at hc
          simp at hc
        | some g =>
          simp only [hcr] at hP
          cases hapi : env.apiCreateFlashcard { card with ankiId := some g, updated := false } with
          | error e =>
            simp only [hapi] at hP
            rw [Prod.mk.injEq] at hP
            rw [← hP.2] at hc
            simp at hc
          | ok b =>
            simp only [hapi] at hP
            rw [Prod.mk.injEq] at hP
            rw [← hP.2] at hc
            simp only [Except.ok.injEq, Option.some.injEq] at hc
            subst hc
            refine ⟨rfl, ?_⟩
            refine ⟨[SyncEvent.deckResolve card.deck] ++ ([] : List SyncEvent) ++
              [SyncEvent.localCreate, SyncEvent.setAnkiId g], ?_⟩
            rw [← hP.1]
            simp

/-- Reading a field after an assignment: the assigned key now holds the new
value, every other key is untouched. -/
theorem fieldGet_setField (fs : List (String × String)) (k v k2 : String) :
    fieldGet (setField fs k v) k2 = if k = k2 then some v else fieldGet fs k2 := by
  induction fs with
  | nil =>
    by_cases h : k = k2 <;> simp [setField, fieldGet, h]
  | cons kv rest ih =>
    by_cases hk : kv.1 = k <;> by_cases h : k = k2 <;>
      by_cases hkv2 : kv.1 = k2 <;> simp_all [setField, fieldGet]

/-- An environment for the two-branch witness: guid `ref1` resolves to note
7, creation yields guid `ng`. -/
def envC4 : SyncEnv where
  getOrCreateDeckId := fun _ => Except.ok 5
  findNoteByGuid := fun g => if g = "ref1" then Except.ok (some 7) else Except.ok none
  createNewCard := fun _ _ => Except.ok (some ("ng"))
  updateExistingCard := fun _ _ => Except.ok true
  apiCreateFlashcard := fun _ => Except.ok true
  apiUpdateFlashcard := fun _ => Except.ok true

/-- A pending record bound to note 7 via guid `ref1`. -/
def ucardC4 : FlashCard :=
  { deck := "d", front := "uf", back := "ub", updated := true, ankiId := some ("ref1") }

/-- A one-note collection carrying guid `ref1` with stale field values. -/
def colC4 : ACollection :=
  ACollection.mk
    [ANote.mk 7 ("ref1") [("Vorderseite", "o1"), ("Rückseite", "o2"), ("Description", "o3")]]
    []

/-- The collection after `update_existing_card` overwrote note 7. -/
def colC4After : ACollection :=
  ACollection.mk
    [ANote.mk 7 ("ref1") [("Vorderseite", "uf"), ("Rückseite", "ub"), ("Description", "")]]
    [(7, 5)]

/-- C4: a pending record with null `externalRef` takes the create path (the
trace shows a local create and no local update) and, when creation and the
follow-up remote call succeed, ends with the non-null `externalRef` assigned
by the store; a pending record whose `externalRef` resolves locally takes the
update path (local update and no local create in the trace); and a successful
`update_existing_card` leaves the located note's configured front, back and
description fields exactly equal to the incoming record's values (the three
configured field names being distinct, as in the shipped configuration). -/
theorem create_update_branch_post (env : SyncEnv) (cfg : SyncConfig)
    (col col2 : ACollection) (card ucard mcard : FlashCard)
    (dId dId2 mdId : Nat) (g r : String) (nid : Nat) :
    (card.ankiId = none →
      env.getOrCreateDeckId card.deck = Except.ok dId →
      env.createNewCard card dId = Except.ok (some g) →
      (SyncEvent.setAnkiId g ∈ (processCard env card).1 ∧
        SyncEvent.localCreate ∈ (processCard env card).1 ∧
        SyncEvent.localUpdate ∉ (processCard env card).1) ∧
      (env.apiCreateFlashcard { card with ankiId := some g, updated := false } =
          Except.ok true →
        (processCard env card).2 =
          Except.ok (some { card with ankiId := some g, updated := false }) ∧
        ({ card with ankiId := some g, updated := false } : FlashCard).ankiId ≠ none)) ∧
    (ucard.ankiId = some r → r ≠ "" →
      env.getOrCreateDeckId ucard.deck = Except.ok dId2 →
      env.findNoteByGuid r = Except.ok (some nid) →
      SyncEvent.localUpdate ∈ (processCard env ucard).1 ∧
      SyncEvent.localCreate ∉ (processCard env ucard).1) ∧
    (cfg.anki_field_front ≠ cfg.anki_field_back →
      cfg.anki_field_front ≠ cfg.anki_field_description →
      cfg.anki_field_back ≠ cfg.anki_field_description →
      updateExistingCard cfg col mcard mdId = (col2, true) →
      ∃ n, n ∈ col2.notes ∧ n.guid = mcard.ankiId.getD ("") ∧
        fieldGet n.fields cfg.anki_field_front = some mcard.front ∧
        fieldGet n.fields cfg.anki_field_back = some mcard.back ∧
        fieldGet n.fields cfg.anki_field_description = some mcard.description) := by
  refine ⟨?_, ?_, ?_⟩
  · intro hank hdeck hcr
    have htr : truthy card.ankiId = false := by rw [hank]; rfl
    constructor
    · cases hapi2 : env.apiCreateFlashcard { card with ankiId := some g, updated := false } with
      | error e =>
        unfold processCard
        simp [hdeck, htr, truthy, hank, hcr, hapi2]
      | ok b =>
        unfold processCard
        simp [hdeck, htr, truthy, hank, hcr, hapi2]
    · intro hapi
      unfold processCard
      simp [hdeck, htr, truthy, hank, hcr, hapi]
  · intro hu hne hdeck hfind
    have htr : truthy ucard.ankiId = true := by rw [hu]; simp [truthy, hne]
    have hgd : ucard.ankiId.getD ("") = r := by rw [hu]; rfl
    have hcond : ¬(ucard.ankiId = none ∨ (some nid : Option Nat) = none) := by
      rw [hu]; simp
    unfold processCard
    simp only [hdeck, htr, if_true, hgd, hfind]
    rw [if_neg hcond]
    cases hupd : env.updateExistingCard ucard dId2 with
    | error e => simp [hupd]
    | ok b =>
      cases b with
      | false => simp [hupd]
      | true =>
        cases hapi : env.apiUpdateFlashcard { ucard with updated := false } with
        | error e => simp [hupd, hapi]
        | ok b2 => simp [hupd, hapi]
  · intro h1 h2 h3 hupd
    unfold updateExistingCard at hupd
    cases ht : truthy mcard.ankiId with
    | false =>
      rw [ht] at hupd
      simp only [if_true] at hupd
      rw [Prod.mk.injEq] at hupd
      exact absurd hupd.2 (by simp)
    | true =>
      rw [ht] at hupd
      simp only [Bool.true_eq_false, if_false] at hupd
      cases hfind2 : findNoteIdByGuid col (mcard.ankiId.getD ("")) with
      | none =>
        simp only [hfind2] at hupd
        rw [Prod.mk.injEq] at hupd
        exact absurd hupd.2 (by simp)
      | some nid0 =>
        simp only [hfind2] at hupd
        rw [Prod.mk.injEq] at hupd
        obtain ⟨n0, hfn0, hnid⟩ := Option.map_eq_some'.mp hfind2
        have hguid : n0.guid = mcard.ankiId.getD ("") := by
          have := List.find?_some hfn0
          simpa using this
        have hmemn0 : n0 ∈ col.notes := List.mem_of_find?_eq_some hfn0
        refine ⟨{ n0 with fields := setNoteFields cfg n0.fields mcard }, ?_, ?_, ?_, ?_, ?_⟩
        · rw [← hupd.1]
          simp only [addCardToDeck]
          have hm := List.mem_map_of_mem
            (fun n : ANote =>
              if n.nid = nid0 then { n with fields := setNoteFields cfg n.fields mcard }
              else n) hmemn0
          simpa [hnid] using hm
        · simpa using hguid
        · simp only [setNoteFields]
          rw [fieldGet_setField, if_neg (Ne.symm h2), fieldGet_setField,
            if_neg (Ne.symm h1), fieldGet_setField, if_pos rfl]
        · simp only [setNoteFields]
          rw [fieldGet_setField, if_neg (Ne.symm h3), fieldGet_setField, if_pos rfl]
        · simp only [setNoteFields]
          rw [fieldGet_setField, if_pos rfl]

/-- C4 witness: the create branch on a fresh record assigns guid `ng`; the
update branch on `ucardC4` (guid `ref1`, resolving to note 7) runs a local
update; and the concrete collection `colC4` ends with note 7 holding exactly
the incoming values. -/
theorem create_update_branch_post_witness :
    ((SyncEvent.setAnkiId ("ng") ∈ (processCard envC4 cardNew).1 ∧
        SyncEvent.localCreate ∈ (processCard envC4 cardNew).1 ∧
        SyncEvent.localUpdate ∉ (processCard envC4 cardNew).1) ∧
      (envC4.apiCreateFlashcard { cardNew with ankiId := some ("ng"), updated := false } =
          Except.ok true →
        (processCard envC4 cardNew).2 =
          Except.ok (some { cardNew with ankiId := some ("ng"), updated := false }) ∧
        ({ cardNew with ankiId := some ("ng"), updated := false } : FlashCard).ankiId ≠ none)) ∧
    (SyncEvent.localUpdate ∈ (processCard envC4 ucardC4).1 ∧
      SyncEvent.localCreate ∉ (processCard envC4 ucardC4).1) ∧
    (∃ n, n ∈ colC4After.notes ∧ n.guid = ucardC4.ankiId.getD ("") ∧
      fieldGet n.fields ({} : SyncConfig).anki_field_front = some ucardC4.front ∧
      fieldGet n.fields ({} : SyncConfig).anki_field_back = some ucardC4.back ∧
      fieldGet n.fields ({} : SyncConfig).anki_field_description = some ucardC4.description) :=
  ⟨(create_update_branch_post envC4 ({} : SyncConfig) colC4 colC4After cardNew ucardC4
      ucardC4 5 5 5 ("ng") ("ref1") 7).1 rfl rfl rfl,
    (create_update_branch_post envC4 ({} : SyncConfig) colC4 colC4After cardNew ucardC4
      ucardC4 5 5 5 ("ng") ("ref1") 7).2.1 rfl (by decide) rfl rfl,
    (create_update_branch_post envC4 ({} : SyncConfig) colC4 colC4After cardNew ucardC4
      ucardC4 5 5 5 ("ng") ("ref1") 7).2.2 (by decide) (by decide) (by decide) rfl⟩

/-- C3 amended witness: the successful create path above reports the record
with `updated = false` and a trace ending in the flag assignment directly
followed by the acknowledgment. -/
theorem needsSync_cleared_then_acked_witness :
    ({ cardNew with ankiId := some ("g1"), updated := false } : FlashCard).updated = false ∧
    ∃ pre, (processCard envOk cardNew).1 =
      pre ++ [SyncEvent.setUpdatedFalse, SyncEvent.remoteAck] :=
  needsSync_cleared_then_acked envOk cardNew
    { cardNew with ankiId := some ("g1"), updated := false } rfl

/-- A decode failure anywhere in the payload fails the whole decode: no
partial batch is ever produced. -/
theorem decodeAll_error_of_mem (raws : List (List (String × JVal)))
    (raw : List (String × JVal)) (err : SyncError)
    (hmem : raw ∈ raws) (hbad : decodeRaw raw = Except.error err) :
    ∃ e2, decodeAll raws = Except.error e2 := by
  induction raws with
  | nil => simp at hmem
  | cons a rest ih =>
    rcases List.mem_cons.mp hmem with h | h
    · subst h
      exact ⟨err, by simp [decodeAll, hbad]⟩
    · cases ha : decodeRaw a with
      | error e => exact ⟨e, by simp [decodeAll, ha]⟩
      | ok c =>
        obtain ⟨e2, he2⟩ := ih h
        exact ⟨e2, by simp [decodeAll, ha, he2]⟩

/-- C5: a transport error or non-2xx status on the initial fetch surfaces
`VocabularyAPIError` out of `synchronize` with no result (and no events at
all); and a single malformed entry in an otherwise successful response fails
the whole fetch — and hence the whole run — rather than yielding a partially
decoded batch. -/
theorem fetch_failure_aborts (env : SyncEnv) (e : String)
    (raws : List (List (String × JVal))) (raw : List (String × JVal))
    (err : SyncError) :
    ((synchronizeUpdatedCards env (fetchUpdatedFlashcards (Except.error e))).2 =
        Except.error (SyncError.api ("Failed to fetch updated flashcards: " ++ e)) ∧
      (synchronizeUpdatedCards env (fetchUpdatedFlashcards (Except.error e))).1 = []) ∧
    (raw ∈ raws → decodeRaw raw = Except.error err →
      (∃ e2, fetchUpdatedFlashcards (Except.ok raws) = Except.error e2) ∧
      (∃ e3, (synchronizeUpdatedCards env
          (fetchUpdatedFlashcards (Except.ok raws))).2 = Except.error e3)) := by
  refine ⟨⟨rfl, rfl⟩, ?_⟩
  intro hmem hbad
  obtain ⟨e2, he2⟩ := decodeAll_error_of_mem raws raw err hmem hbad
  have hf : fetchUpdatedFlashcards (Except.ok raws) = Except.error e2 := by
    simpa [fetchUpdatedFlashcards] using he2
  refine ⟨⟨e2, hf⟩, ?_⟩
  rw [hf]
  cases e2 with
  | api m => exact ⟨SyncError.api m, rfl⟩
  | other m =>
    exact ⟨SyncError.api ("Synchronization failed: " ++ m), rfl⟩

/-- C5 witness: a concrete transport failure aborts the run, and a payload
whose single entry misses the required `deck`, `front`, `back`, `updated`
fields fails the whole fetch and the whole run. -/
theorem fetch_failure_aborts_witness :
    ((synchronizeUpdatedCards envOk (fetchUpdatedFlashcards (Except.error ("conn")))).2 =
        Except.error (SyncError.api ("Failed to fetch updated flashcards: " ++ "conn")) ∧
      (synchronizeUpdatedCards envOk (fetchUpdatedFlashcards (Except.error ("conn")))).1 = []) ∧
    ((∃ e2, fetchUpdatedFlashcards (Except.ok [[(("front" : String), JVal.s ("x"))]]) =
        Except.error e2) ∧
      (∃ e3, (synchronizeUpdatedCards envOk
          (fetchUpdatedFlashcards (Except.ok [[(("front" : String), JVal.s ("x"))]]))).2 =
        Except.error e3)) :=
  ⟨(fetch_failure_aborts envOk ("conn") [[(("front" : String), JVal.s ("x"))]]
      [(("front" : String), JVal.s ("x"))] (SyncError.other ("missing required argument"))).1,
    (fetch_failure_aborts envOk ("conn") [[(("front" : String), JVal.s ("x"))]]
      [(("front" : String), JVal.s ("x"))] (SyncError.other ("missing required argument"))).2
      (by simp) (by rfl)⟩

/-- The parse loop started at physical line `i` fails on the first offending
line: if every line before position `j` is acceptable and the line at `j` is
not, the parse aborts with an error naming line `i + j`. -/
theorem parseLines_first_bad : ∀ (lines : List ImportLine) (j i : Nat)
    (hj : j < lines.length),
    (∀ m (hm : m < lines.length), m < j → lineOk (lines.get ⟨m, hm⟩) = true) →
    lineOk (lines.get ⟨j, hj⟩) = false →
    ∃ e, parseLines i lines = Except.error e ∧ FileImportError.line e = i + j := by
  intro lines
  induction lines with
  | nil => intro j i hj; simp at hj
  | cons l rest ih =>
    intro j i hj hpre hbad
    cases j with
    | zero =>
      simp only [List.get] at hbad
      cases l with
      | blank => simp [lineOk] at hbad
      | malformed msg =>
        exact ⟨FileImportError.invalidJson i msg,
          by simp [parseLines, parseLine], by simp [FileImportError.line]⟩
      | record p =>
        simp only [lineOk, Bool.and_eq_false_iff] at hbad
        by_cases hf : p.any (fun kv => kv.1 = "front") = true
        · have hb : p.any (fun kv => kv.1 = "back") = false := by
            rcases hbad with h | h
            · rw [hf] at h; simp at h
            · exact h
          exact ⟨FileImportError.missingField ("back") i,
            by simp [parseLines, parseLine, hf, hb], by simp [FileImportError.line]⟩
        · have hf2 : p.any (fun kv => kv.1 = "front") = false := eq_false_of_ne_true hf
          exact ⟨FileImportError.missingField ("front") i,
            by simp [parseLines, parseLine, hf2], by simp [FileImportError.line]⟩
    | succ j2 =>
      have hok : lineOk l = true := hpre 0 (by simp) (Nat.succ_pos j2)
      have hj2 : j2 < rest.length := by simpa using hj
      have hpre2 : ∀ m (hm : m < rest.length), m < j2 → lineOk (rest.get ⟨m, hm⟩) = true := by
        intro m hm hmj
        have := hpre (m + 1) (by simpa using hm) (Nat.succ_lt_succ hmj)
        simpa using this
      have hbad2 : lineOk (rest.get ⟨j2, hj2⟩) = false := by simpa using hbad
      obtain ⟨e, he, hline⟩ := ih j2 (i + 1) hj2 hpre2 hbad2
      cases l with
      | blank =>
        refine ⟨e, ?_, by omega⟩
        simpa [parseLines, parseLine] using he
      | malformed msg => simp [lineOk] at hok
      | record p =>
        simp only [lineOk, Bool.and_eq_true] at hok
        refine ⟨e, ?_, by omega⟩
        simp [parseLines, parseLine, hok.1, hok.2, he]

/-- When every line is blank or carries both required keys, the parse
succeeds: blank lines are skipped without error. -/
theorem parseLines_ok_of_all_ok : ∀ (lines : List ImportLine) (i : Nat),
    (∀ l ∈ lines, lineOk l = true) → ∃ cs, parseLines i lines = Except.ok cs := by
  intro lines
  induction lines with
  | nil => intro i _; exact ⟨[], rfl⟩
  | cons l rest ih =>
    intro i h
    obtain ⟨cs, hcs⟩ := ih (i + 1) (fun x hx => h x (List.mem_cons_of_mem l hx))
    have hok := h l (List.mem_cons_self l rest)
    cases l with
    | blank => exact ⟨cs, by simpa [parseLines, parseLine] using hcs⟩
    | malformed msg => simp [lineOk] at hok
    | record p =>
      simp only [lineOk, Bool.and_eq_true] at hok
      cases hpl : parseLine (ImportLine.record p) i with
      | error e2 => simp [parseLine, hok.1, hok.2] at hpl
      | ok oc =>
        cases oc with
        | none => simp [parseLine, hok.1, hok.2] at hpl
        | some card => exact ⟨card :: cs, by simp [parseLines, hpl, hcs]⟩

/-- C7 counterexample: in the three-line file `[malformed e1, blank,
malformed e3]`, line 3 (1-based) is not valid JSON, yet `parse_file` reports
line 1: with an earlier invalid line the error does not name line `n`, so the
claim's "regardless of the validity of the lines before n" fails. -/
theorem parse_error_names_first_bad_line :
    lineOk (ImportLine.malformed ("e3")) = false ∧
    parseFile [ImportLine.malformed ("e1"), ImportLine.blank, ImportLine.malformed ("e3")] =
      Except.error (FileImportError.invalidJson 1 ("e1")) ∧
    FileImportError.line (FileImportError.invalidJson 1 ("e1")) ≠ 3 := by
  refine ⟨rfl, rfl, by decide⟩

/-- C7 amended: if every physical line before line `n` (1-based, blank lines
counted) is blank or a decoded object carrying both required keys, and line
`n` is not valid JSON or lacks a required key, then `parse_file` fails with
an `ImportError` naming line `n` and returns no partial list; and a file
whose every line is acceptable parses without error (blank lines skipped). -/
theorem parse_import_fail_fast (lines : List ImportLine) (n : Nat) :
    (1 ≤ n → (hn : n - 1 < lines.length) →
      (∀ m (hm : m < lines.length), m < n - 1 → lineOk (lines.get ⟨m, hm⟩) = true) →
      lineOk (lines.get ⟨n - 1, hn⟩) = false →
      ∃ e, parseFile lines = Except.error e ∧ FileImportError.line e = n) ∧
    ((∀ l ∈ lines, lineOk l = true) → ∃ cs, parseFile lines = Except.ok cs) := by
  constructor
  · intro h1 hn hpre hbad
    obtain ⟨e, he, hline⟩ := parseLines_first_bad lines (n - 1) 1 hn hpre hbad
    exact ⟨e, he, by omega⟩
  · intro h
    exact parseLines_ok_of_all_ok lines 1 h

/-- C7 amended witness: a blank line, a valid record line and a malformed
line 3 fail the parse naming line 3; a file of one blank line parses. -/
theorem parse_import_fail_fast_witness :
    (∃ e, parseFile [ImportLine.blank,
        ImportLine.record [("front", JVal.s ("h")), ("back", JVal.s ("d"))],
        ImportLine.malformed ("bad")] = Except.error e ∧ FileImportError.line e = 3) ∧
    (∃ cs, parseFile [ImportLine.blank] = Except.ok cs) :=
  ⟨(parse_import_fail_fast [ImportLine.blank,
      ImportLine.record [("front", JVal.s ("h")), ("back", JVal.s ("d"))],
      ImportLine.malformed ("bad")] 3).1 (by decide) (by decide)
      (by decide) (by rfl),
    (parse_import_fail_fast [ImportLine.blank] 1).2 (by decide)⟩

/-- An import environment in which deck resolution yields deck 1 and every
creation succeeds with guid `ig`. -/
def envImp : ImportEnv where
  getOrCreateDeckId := fun _ => 1
  createNewCard := fun _ _ => some ("ig")

/-- C8: for a record whose forward and reverse creations succeed,
`import_cards([record], true, true)` reports exactly two records — the
forward one keeping the original faces in the configured forward deck, then
the reverse one with swapped faces in the configured reverse deck, its
`ankiId` cleared to null — while `import_cards([record], true, false)`
reports only the forward one. -/
theorem dual_orientation_import (env : ImportEnv) (cfg : SyncConfig)
    (r : FlashCard) (g1 g2 : String)
    (hf : env.createNewCard (mkForwardCard cfg r)
      (env.getOrCreateDeckId cfg.import_deck_forward_name) = some g1)
    (hrv : env.createNewCard (mkReverseCard cfg r)
      (env.getOrCreateDeckId cfg.import_deck_reverse_name) = some g2) :
    (importCards env cfg [r] true true).2.changed_cards =
      [mkForwardCard cfg r, mkReverseCard cfg r] ∧
    (importCards env cfg [r] true false).2.changed_cards = [mkForwardCard cfg r] ∧
    (mkForwardCard cfg r).front = r.front ∧ (mkForwardCard cfg r).back = r.back ∧
    (mkForwardCard cfg r).deck = cfg.import_deck_forward_name ∧
    (mkReverseCard cfg r).front = r.back ∧ (mkReverseCard cfg r).back = r.front ∧
    (mkReverseCard cfg r).deck = cfg.import_deck_reverse_name ∧
    (mkReverseCard cfg r).ankiId = none := by
  refine ⟨?_, ?_, rfl, rfl, rfl, rfl, rfl, rfl, rfl⟩
  · simp [importCards, importLoop, hf, hrv]
  · simp [importCards, importLoop, hf]

/-- C8 witness: one concrete record imported in both orientations and then
forward-only, under an environment whose creations succeed. -/
theorem dual_orientation_import_witness :
    (importCards envImp ({} : SyncConfig) [cardNew] true true).2.changed_cards =
      [mkForwardCard ({} : SyncConfig) cardNew, mkReverseCard ({} : SyncConfig) cardNew] ∧
    (importCards envImp ({} : SyncConfig) [cardNew] true false).2.changed_cards =
      [mkForwardCard ({} : SyncConfig) cardNew] ∧
    (mkForwardCard ({} : SyncConfig) cardNew).front = cardNew.front ∧
    (mkForwardCard ({} : SyncConfig) cardNew).back = cardNew.back ∧
    (mkForwardCard ({} : SyncConfig) cardNew).deck =
      ({} : SyncConfig).import_deck_forward_name ∧
    (mkReverseCard ({} : SyncConfig) cardNew).front = cardNew.back ∧
    (mkReverseCard ({} : SyncConfig) cardNew).back = cardNew.front ∧
    (mkReverseCard ({} : SyncConfig) cardNew).deck =
      ({} : SyncConfig).import_deck_reverse_name ∧
    (mkReverseCard ({} : SyncConfig) cardNew).ankiId = none :=
  dual_orientation_import envImp ({} : SyncConfig) cardNew ("ig") ("ig") rfl rfl

/-- C9: every `import_cards` run resolves-or-creates the forward deck and
then the reverse deck before any record is processed — its trace starts with
exactly those two local-store calls — and an import with an empty record
list, or with both orientation flags off, still performs exactly those two
calls (unlike `synchronize` on an empty pending list, which performs none). -/
theorem import_always_resolves_decks (env : ImportEnv) (cfg : SyncConfig)
    (cards : List FlashCard) (doForward doReverse : Bool) :
    (∃ rest, (importCards env cfg cards doForward doReverse).1 =
      ImportEvent.deckResolve cfg.import_deck_forward_name ::
        ImportEvent.deckResolve cfg.import_deck_reverse_name :: rest) ∧
    (importCards env cfg [] doForward doReverse).1 =
      [ImportEvent.deckResolve cfg.import_deck_forward_name,
        ImportEvent.deckResolve cfg.import_deck_reverse_name] ∧
    (importCards env cfg cards false false).1 =
      [ImportEvent.deckResolve cfg.import_deck_forward_name,
        ImportEvent.deckResolve cfg.import_deck_reverse_name] := by
  have hff : ∀ cs : List FlashCard,
      (importLoop env cfg (env.getOrCreateDeckId cfg.import_deck_forward_name)
        (env.getOrCreateDeckId cfg.import_deck_reverse_name) false false cs).1 = [] := by
    intro cs
    induction cs with
    | nil => rfl
    | cons a rest ih => simp [importLoop, ih]
  refine ⟨⟨(importLoop env cfg (env.getOrCreateDeckId cfg.import_deck_forward_name)
      (env.getOrCreateDeckId cfg.import_deck_reverse_name) doForward doReverse cards).1,
      by simp [importCards]⟩,
    by simp [importCards, importLoop], ?_⟩
  simp [importCards, hff]

/-- Every record the import loop reports is a freshly built forward or
reverse orientation of some input record. -/
theorem importLoop_mem (env : ImportEnv) (cfg : SyncConfig) (fwdId revId : Nat)
    (doF doR : Bool) (cards : List FlashCard) (c : FlashCard)
    (hc : c ∈ (importLoop env cfg fwdId revId doF doR cards).2) :
    (∃ src, src ∈ cards ∧ c = mkForwardCard cfg src) ∨
    (∃ src, src ∈ cards ∧ c = mkReverseCard cfg src) := by
  induction cards with
  | nil => simp [importLoop] at hc
  | cons a rest ih =>
    simp only [importLoop] at hc
    rw [List.mem_append, List.mem_append] at hc
    have hstep : ∀ (card2 : FlashCard) (dk : Nat) (do2 : Bool),
        c ∈ (if do2 = true then
            ([ImportEvent.createCard card2.deck card2.front card2.back],
              match env.createNewCard card2 dk with
              | some _ => [card2]
              | none => [])
          else (([] : List ImportEvent), ([] : List FlashCard))).2 → c = card2 := by
      intro card2 dk do2 hmem
      cases do2 with
      | false => simp at hmem
      | true =>
        simp only [if_true] at hmem
        cases hg : env.createNewCard card2 dk with
        | none => rw [hg] at hmem; simp at hmem
        | some g =>
          rw [hg] at hmem
          simpa using hmem
    rcases hc with (h | h) | h
    · exact Or.inl ⟨a, List.mem_cons_self a rest, hstep (mkForwardCard cfg a) fwdId doF h⟩
    · exact Or.inr ⟨a, List.mem_cons_self a rest, hstep (mkReverseCard cfg a) revId doR h⟩
    · rcases ih h with ⟨src, hs, he⟩ | ⟨src, hs, he⟩
      · exact Or.inl ⟨src, List.mem_cons_of_mem a hs, he⟩
      · exact Or.inr ⟨src, List.mem_cons_of_mem a hs, he⟩

/-- C10: every record reported by `import_cards` is a freshly built record:
a forward orientation keeping the source record's `ankiId` unchanged (never
the guid newly assigned by the store), or a reverse orientation with
`ankiId = none`; the input records themselves are values the loop never
modifies. -/
theorem import_keeps_forward_ref (env : ImportEnv) (cfg : SyncConfig)
    (cards : List FlashCard) (doForward doReverse : Bool) (c : FlashCard)
    (hc : c ∈ (importCards env cfg cards doForward doReverse).2.changed_cards) :
    (∃ src, src ∈ cards ∧ c = mkForwardCard cfg src ∧ c.ankiId = src.ankiId) ∨
    (∃ src, src ∈ cards ∧ c = mkReverseCard cfg src ∧ c.ankiId = none) := by
  have hc2 : c ∈ (importLoop env cfg
      (env.getOrCreateDeckId cfg.import_deck_forward_name)
      (env.getOrCreateDeckId cfg.import_deck_reverse_name)
      doForward doReverse cards).2 := by
    simpa [importCards] using hc
  rcases importLoop_mem env cfg _ _ doForward doReverse cards c hc2 with
    ⟨src, hs, he⟩ | ⟨src, hs, he⟩
  · exact Or.inl ⟨src, hs, he, by rw [he]; rfl⟩
  · exact Or.inr ⟨src, hs, he, by rw [he]; rfl⟩

/-- C10 witness: the forward record imported from `cardDrift` (whose
`ankiId` is `gOld`) keeps that `ankiId` even though the store assigned the
fresh guid `ig` on creation. -/
theorem import_keeps_forward_ref_witness :
    (∃ src, src ∈ [cardDrift] ∧
      mkForwardCard ({} : SyncConfig) cardDrift = mkForwardCard ({} : SyncConfig) src ∧
      (mkForwardCard ({} : SyncConfig) cardDrift).ankiId = src.ankiId) ∨
    (∃ src, src ∈ [cardDrift] ∧
      mkForwardCard ({} : SyncConfig) cardDrift = mkReverseCard ({} : SyncConfig) src ∧
      (mkForwardCard ({} : SyncConfig) cardDrift).ankiId = none) :=
  import_keeps_forward_ref envImp ({} : SyncConfig) [cardDrift] true true
    (mkForwardCard ({} : SyncConfig) cardDrift) (by decide)

end AnkiAddon
